import Mathlib

/-!
Verification development for `src/geodesy_concepts.py`: a shallow embedding
of the script in Lean 4.  The script delegates all geodesy computation to
external libraries (GDAL/osgeo `osr` and `pyproj`); those libraries are
modelled as an abstract record of service functions (`GeoServices`), each of
which may fail (Python exceptions become `Except PyErr`).  The script's own
logic — sequencing, tuple plumbing, literal constants, the feet conversion,
and the formatted print statements — is embedded faithfully.

Printed output is modelled structurally: each `print(...)` call produces one
`Line`, a list of `Item`s.  An f-string is split at its interpolation points:
literal segments become `Item.str`, an interpolated string value becomes
`Item.str`, and an interpolated float becomes `Item.num v p` where `p` is the
number of decimal places in the format spec (`none` for Python's default
float rendering).
-/

namespace GeodesyConcepts

/-- Python exception payload (the message carried by a raised exception). -/
abbrev PyErr := String

/-- One interpolation segment of a printed f-string. -/
inductive Item where
  | str : String → Item
  | num : Float → Option Nat → Item

/-- One printed line (one `print(...)` call). -/
abbrev Line := List Item

/-- The string produced by the Python expression `'='*70`. -/
def eqBar : String := String.mk (List.replicate 70 '=')

/-- Embedding of `print_header(title)`: three `print` calls. -/
def print_header (title : String) : List Line :=
  [[Item.str "\n", Item.str eqBar],
   [Item.str " ", Item.str title],
   [Item.str eqBar]]

/--
The external geodesy libraries, abstractly.  A `SpatialReference` built via
`ImportFromEPSG(code)` is identified by its `code`, so the `osr` query
methods take the code as first argument; a pyproj `Transformer` is identified
by its `from_crs` construction arguments, and a `Geod` by its `ellps` string.
Every call may raise (return `.error`).
-/
structure GeoServices where
  importFromEPSG : Int → Except PyErr Unit
  getName : Int → Except PyErr String
  getAuthorityCode : Int → Option String → Except PyErr String
  getAttrValue : Int → String → Except PyErr String
  fromCRS : String → String → Bool → Except PyErr Unit
  transform : String → String → Bool → Float → Float → Except PyErr (Float × Float)
  geodCtor : String → Except PyErr Unit
  geodInv : String → Float → Float → Float → Float → Except PyErr (Float × Float × Float)

/-- Literal latitude of Meades Ranch, Kansas, in NAD27 (from the source). -/
def lat_nad27 : Float := 39.224079

/-- Literal longitude of Meades Ranch, Kansas, in NAD27 (from the source). -/
def lon_nad27 : Float := -98.541802

/--
Embedding of `inspect_epsg_hierarchy()`: builds an `osr.SpatialReference`
from EPSG code 4326, queries the parent name/code, the DATUM sub-component
and the SPHEROID sub-component, and prints them.  Returns the printed lines
(the Python function returns `None`; its only effect is output).
-/
def inspect_epsg_hierarchy (s : GeoServices) : Except PyErr (List Line) := do
  s.importFromEPSG 4326
  let name ← s.getName 4326
  let code ← s.getAuthorityCode 4326 none
  let datum_name ← s.getAttrValue 4326 "DATUM"
  let datum_code ← s.getAuthorityCode 4326 (some "DATUM")
  let ellipsoid_name ← s.getAttrValue 4326 "SPHEROID"
  let ellipsoid_code ← s.getAuthorityCode 4326 (some "SPHEROID")
  return print_header "1. INSPECTING THE HIERARCHY (EPSG:4326)" ++
    [[Item.str "Goal: Prove that EPSG:4326 is a container for other codes.\n"],
     [Item.str "PARENT SYSTEM: ", Item.str name],
     [Item.str " -> Authority Code: ", Item.str code, Item.str " (The \x27Whole Car\x27)"],
     [Item.str "\n  -> CHILD COMPONENT (DATUM): ", Item.str datum_name],
     [Item.str "  -> Datum Code: ", Item.str datum_code],
     [Item.str "     (Matches the \x276326\x27 seen in your assets/image_28e358.png)"],
     [Item.str "\n    -> GRANDCHILD COMPONENT (ELLIPSOID): ", Item.str ellipsoid_name],
     [Item.str "    -> Ellipsoid Code: ", Item.str ellipsoid_code]]

/--
Embedding of `demonstrate_datum_shift()`: constructs a transformer from
EPSG:4267 to EPSG:4326 with `always_xy=True`, invokes it on
`(lon_nad27, lat_nad27)` — longitude first — and returns the printed lines
together with the two `(longitude, latitude)` tuples the Python function
returns.
-/
def demonstrate_datum_shift (s : GeoServices) :
    Except PyErr (List Line × ((Float × Float) × (Float × Float))) := do
  s.fromCRS "EPSG:4267" "EPSG:4326" true
  let (lon_wgs84, lat_wgs84) ← s.transform "EPSG:4267" "EPSG:4326" true lon_nad27 lat_nad27
  return (print_header "2. THE DATUM SHIFT (Moving the Anchor)" ++
    [[Item.str "Goal: Show that the \x27same\x27 physical spot has different numbers in different datums.\n"],
     [Item.str "Physical Point: Meades Ranch, Kansas"],
     [Item.str "Original Coordinate (NAD27 / EPSG:4267): ", Item.num lat_nad27 none,
      Item.str ", ", Item.num lon_nad27 none],
     [Item.str "Transformed Coordinate (WGS84 / EPSG:4326): ", Item.num lat_wgs84 (some 6),
      Item.str ", ", Item.num lon_wgs84 (some 6)]],
    ((lon_nad27, lat_nad27), (lon_wgs84, lat_wgs84)))

/--
Embedding of `calculate_error(coord_nad27, coord_wgs84)`: unpacks the two
`(longitude, latitude)` pairs, builds `Geod(ellps='WGS84')`, calls
`geod.inv(lon_new, lat_new, lon_old, lat_old)` — the WGS84 point first —
discards the two azimuths, and prints the distance in meters and in feet
(meters times 3.28084), each with 2 decimal places.
-/
def calculate_error (s : GeoServices) (coord_nad27 coord_wgs84 : Float × Float) :
    Except PyErr (List Line) := do
  let (lon_old, lat_old) := coord_nad27
  let (lon_new, lat_new) := coord_wgs84
  s.geodCtor "WGS84"
  let (_, _, distance_meters) ← s.geodInv "WGS84" lon_new lat_new lon_old lat_old
  return print_header "3. THE REAL WORLD ERROR" ++
    [[Item.str "Goal: Measure the mistake if you confuse the Datums.\n"],
     [Item.str "If you input the NAD27 coordinates into a WGS84 GPS..."],
     [Item.str "You would be off by: ", Item.num distance_meters (some 2), Item.str " meters"],
     [Item.str "(", Item.num (distance_meters * 3.28084) (some 2), Item.str " feet)"],
     [Item.str "\nCONCLUSION: 4326 (The System) defines WHICH Datum (6326) to use."],
     [Item.str "If you use the wrong system, you use the wrong anchor!"]]

/--
Embedding of `main()`: step 1 (return value unused), step 2 (capturing its
two pairs), step 3 (consuming exactly those pairs), with the opening print
and the closing header.  Straight-line code: no branch, no loop, no
exception handler.
-/
def main (s : GeoServices) : Except PyErr (List Line) := do
  let out1 ← inspect_epsg_hierarchy s
  let (out2, (coords_nad27, coords_wgs84)) ← demonstrate_datum_shift s
  let out3 ← calculate_error s coords_nad27 coords_wgs84
  return [[Item.str "Running Geodesy Concept Script..."]] ++
    out1 ++ out2 ++ out3 ++ print_header "SCRIPT COMPLETE"

/-- Outcome of the module-level `import` statements for osgeo and pyproj. -/
inductive ImportOutcome where
  | ok : ImportOutcome
  | importError : String → ImportOutcome
  | otherError : String → ImportOutcome

/-- How the process ends: a clean exit with a status and its stdout, or an
uncaught exception terminating the process. -/
inductive ProcResult where
  | exited : Int → List Line → ProcResult
  | uncaught : PyErr → ProcResult

/--
Embedding of the whole program run: the module-level
`try: import ... except ImportError as e:` guard, then `main()`.  Only
`ImportError` is caught by the guard; any other import-time exception, and
any exception raised inside `main`, terminates the process uncaught.
-/
def program (imp : ImportOutcome) (s : GeoServices) : ProcResult :=
  match imp with
  | .importError e =>
      .exited 1
        [[Item.str "Error: Missing required libraries."],
         [Item.str "Details: ", Item.str e],
         [Item.str "Please install them using: pip install gdal pyproj"]]
  | .otherError e => .uncaught e
  | .ok =>
      match main s with
      | .ok out => .exited 0 out
      | .error e => .uncaught e

/--
Ambient state a process could in principle observe or mutate: a clock, a
randomness seed, and state persisted across runs.  The source script reads
none of these (no time, random, file, or environment access), so a run
leaves the world unchanged and its result does not depend on it.
-/
structure World where
  clock : Nat
  randomSeed : Nat
  persisted : List String

/-- One process run in an ambient world: the script consults no ambient
state and persists nothing, so the world passes through unchanged. -/
def run_program (imp : ImportOutcome) (s : GeoServices) (w : World) :
    ProcResult × World :=
  (program imp s, w)

/--
A concrete instantiation of the external services behaving as the spec
describes them (EPSG:4326 resolves to WGS 84 with datum 6326 and ellipsoid
7030; the NAD27 to WGS84 transform and the WGS84 geodesic inverse return
fixed plausible values).  Used to witness the conditional theorems below.
-/
def okServices : GeoServices where
  importFromEPSG := fun _ => .ok ()
  getName := fun _ => .ok "WGS 84"
  getAuthorityCode := fun _ k =>
    match k with
    | none => .ok "4326"
    | some "DATUM" => .ok "6326"
    | some "SPHEROID" => .ok "7030"
    | some _ => .error "no authority code"
  getAttrValue := fun _ k =>
    match k with
    | "DATUM" => .ok "WGS_1984"
    | "SPHEROID" => .ok "WGS 84"
    | _ => .error "no attribute"
  fromCRS := fun _ _ _ => .ok ()
  transform := fun _ _ _ _ _ => .ok (-98.541431, 39.224243)
  geodCtor := fun _ => .ok ()
  geodInv := fun _ _ _ _ _ => .ok (245.0, 65.0, 40.0)

/-- Services whose CRS lookup raises, to witness error propagation. -/
def failServices : GeoServices :=
  { okServices with importFromEPSG := fun _ => .error "boom" }

/-- Services whose geodesic inverse solve raises, to witness that a failure
of the solve itself propagates uncaught. -/
def failInvServices : GeoServices :=
  { okServices with geodInv := fun _ _ _ _ _ => .error "solve failed" }

/-- The lines `inspect_epsg_hierarchy` prints under `okServices`. -/
def okInspectLines : List Line :=
  print_header "1. INSPECTING THE HIERARCHY (EPSG:4326)" ++
    [[Item.str "Goal: Prove that EPSG:4326 is a container for other codes.\n"],
     [Item.str "PARENT SYSTEM: ", Item.str "WGS 84"],
     [Item.str " -> Authority Code: ", Item.str "4326", Item.str " (The \x27Whole Car\x27)"],
     [Item.str "\n  -> CHILD COMPONENT (DATUM): ", Item.str "WGS_1984"],
     [Item.str "  -> Datum Code: ", Item.str "6326"],
     [Item.str "     (Matches the \x276326\x27 seen in your assets/image_28e358.png)"],
     [Item.str "\n    -> GRANDCHILD COMPONENT (ELLIPSOID): ", Item.str "WGS 84"],
     [Item.str "    -> Ellipsoid Code: ", Item.str "7030"]]

/-- The lines `demonstrate_datum_shift` prints under `okServices`. -/
def okDemoLines : List Line :=
  print_header "2. THE DATUM SHIFT (Moving the Anchor)" ++
    [[Item.str "Goal: Show that the \x27same\x27 physical spot has different numbers in different datums.\n"],
     [Item.str "Physical Point: Meades Ranch, Kansas"],
     [Item.str "Original Coordinate (NAD27 / EPSG:4267): ", Item.num 39.224079 none,
      Item.str ", ", Item.num (-98.541802) none],
     [Item.str "Transformed Coordinate (WGS84 / EPSG:4326): ", Item.num 39.224243 (some 6),
      Item.str ", ", Item.num (-98.541431) (some 6)]]

/-- Services identical to `okServices` except that the geodesic inverse
returns different azimuths (same distance), to witness that the azimuths
cannot influence the output. -/
def otherAzServices : GeoServices :=
  { okServices with geodInv := fun _ _ _ _ _ => .ok (12.5, 300.25, 40.0) }

/--
C1: `demonstrate_datum_shift` transforms the fixed literal point
(lat 39.224079, lon -98.541802) from EPSG:4267 to EPSG:4326, invoking the
transformation primitive in (longitude, latitude) order, and returns exactly
two (longitude, latitude) tuples: the first is the original NAD27 pair
(-98.541802, 39.224079) unchanged, the second is the transformed WGS84 pair.
-/
theorem demonstrate_datum_shift_returns_pairs (s : GeoServices) (lw lt : Float)
    (hc : s.fromCRS "EPSG:4267" "EPSG:4326" true = .ok ())
    (ht : s.transform "EPSG:4267" "EPSG:4326" true (-98.541802) 39.224079 = .ok (lw, lt)) :
    ∃ out, demonstrate_datum_shift s = .ok (out, ((-98.541802, 39.224079), (lw, lt))) := by
  unfold demonstrate_datum_shift lon_nad27 lat_nad27
  rw [hc, ht]
  exact ⟨_, rfl⟩

/-- Witness for C1 at the concrete `okServices`. -/
theorem demonstrate_datum_shift_returns_pairs_witness :
    ∃ out, demonstrate_datum_shift okServices =
      .ok (out, ((-98.541802, 39.224079), (-98.541431, 39.224243))) :=
  demonstrate_datum_shift_returns_pairs okServices (-98.541431) 39.224243 rfl rfl

/-- The lines `calculate_error` prints for a solver distance `d`: the whole
output is a function of the distance component alone. -/
def calc_error_lines (d : Float) : List Line :=
  print_header "3. THE REAL WORLD ERROR" ++
    [[Item.str "Goal: Measure the mistake if you confuse the Datums.\n"],
     [Item.str "If you input the NAD27 coordinates into a WGS84 GPS..."],
     [Item.str "You would be off by: ", Item.num d (some 2), Item.str " meters"],
     [Item.str "(", Item.num (d * 3.28084) (some 2), Item.str " feet)"],
     [Item.str "\nCONCLUSION: 4326 (The System) defines WHICH Datum (6326) to use."],
     [Item.str "If you use the wrong system, you use the wrong anchor!"]]

/-- Helper: `calculate_error` fully characterized when the WGS84 geodesic
calls succeed — the solver is consulted at (point 1 = WGS84 pair, point 2 =
NAD27 pair) and the output depends only on the distance component. -/
theorem calculate_error_eq (s : GeoServices) (cN cW : Float × Float) (a1 a2 d : Float)
    (hg : s.geodCtor "WGS84" = .ok ())
    (hi : s.geodInv "WGS84" cW.1 cW.2 cN.1 cN.2 = .ok (a1, a2, d)) :
    calculate_error s cN cW = .ok (calc_error_lines d) := by
  obtain ⟨lonN, latN⟩ := cN
  obtain ⟨lonW, latW⟩ := cW
  dsimp only at hi
  unfold calculate_error
  dsimp only
  rw [hg, hi]
  rfl

/--
C2: for every pair of input coordinate pairs, `calculate_error` computes the
distance by invoking the inverse-geodesic solver on the WGS84 ellipsoid
specifically, with the transformed (WGS84) point as point 1 and the original
(NAD27) point as point 2, and retains only the distance component of the
solver result (the output `calc_error_lines d` mentions neither azimuth).
-/
theorem calculate_error_wgs84_inverse (s : GeoServices) (cN cW : Float × Float)
    (a1 a2 d : Float)
    (hg : s.geodCtor "WGS84" = .ok ())
    (hi : s.geodInv "WGS84" cW.1 cW.2 cN.1 cN.2 = .ok (a1, a2, d)) :
    calculate_error s cN cW = .ok (calc_error_lines d) :=
  calculate_error_eq s cN cW a1 a2 d hg hi

/-- Witness for C2 at the concrete `okServices`. -/
theorem calculate_error_wgs84_inverse_witness :
    calculate_error okServices (-98.541802, 39.224079) (-98.541431, 39.224243) =
      .ok (calc_error_lines 40.0) :=
  calculate_error_wgs84_inverse okServices (-98.541802, 39.224079)
    (-98.541431, 39.224243) 245.0 65.0 40.0 rfl rfl

/--
C3: the feet value reported by `calculate_error` equals the meters value
multiplied by the fixed constant 3.28084 (a multiplication performed
locally, not a service call), and the meters and feet items are printed with
2 decimal places.
-/
theorem calculate_error_feet_conversion (s : GeoServices) (cN cW : Float × Float)
    (a1 a2 d : Float)
    (hg : s.geodCtor "WGS84" = .ok ())
    (hi : s.geodInv "WGS84" cW.1 cW.2 cN.1 cN.2 = .ok (a1, a2, d)) :
    ∃ out, calculate_error s cN cW = .ok out ∧
      [Item.str "You would be off by: ", Item.num d (some 2), Item.str " meters"] ∈ out ∧
      [Item.str "(", Item.num (d * 3.28084) (some 2), Item.str " feet)"] ∈ out := by
  refine ⟨calc_error_lines d, calculate_error_eq s cN cW a1 a2 d hg hi, ?_, ?_⟩ <;>
    simp [calc_error_lines, print_header]

/-- Witness for C3 at the concrete `okServices`. -/
theorem calculate_error_feet_conversion_witness :
    ∃ out, calculate_error okServices (-98.541802, 39.224079) (-98.541431, 39.224243) =
        .ok out ∧
      [Item.str "You would be off by: ", Item.num 40.0 (some 2), Item.str " meters"] ∈ out ∧
      [Item.str "(", Item.num (40.0 * 3.28084) (some 2), Item.str " feet)"] ∈ out :=
  calculate_error_feet_conversion okServices (-98.541802, 39.224079)
    (-98.541431, 39.224243) 245.0 65.0 40.0 rfl rfl

/--
C10: `calculate_error` depends on the geodesic solver result only through
the distance component — two services whose inverse solvers agree on the
distance at the consulted points but return different azimuths produce
identical output.
-/
theorem calculate_error_ignores_azimuths (s t : GeoServices) (cN cW : Float × Float)
    (a1 a2 b1 b2 d : Float)
    (hgs : s.geodCtor "WGS84" = .ok ())
    (hgt : t.geodCtor "WGS84" = .ok ())
    (his : s.geodInv "WGS84" cW.1 cW.2 cN.1 cN.2 = .ok (a1, a2, d))
    (hit : t.geodInv "WGS84" cW.1 cW.2 cN.1 cN.2 = .ok (b1, b2, d)) :
    calculate_error s cN cW = calculate_error t cN cW := by
  rw [calculate_error_eq s cN cW a1 a2 d hgs his,
    calculate_error_eq t cN cW b1 b2 d hgt hit]

/-- Witness for C10: `okServices` and `otherAzServices` differ only in the
azimuths their solvers return, and the outputs coincide. -/
theorem calculate_error_ignores_azimuths_witness :
    calculate_error okServices (-98.541802, 39.224079) (-98.541431, 39.224243) =
      calculate_error otherAzServices (-98.541802, 39.224079) (-98.541431, 39.224243) :=
  calculate_error_ignores_azimuths okServices otherAzServices
    (-98.541802, 39.224079) (-98.541431, 39.224243)
    245.0 65.0 12.5 300.25 40.0 rfl rfl rfl rfl

/--
C4: for EPSG:4326, `inspect_epsg_hierarchy` reports the datum authority code
"6326" and the ellipsoid authority code "7030", obtained by querying the
DATUM and SPHEROID sub-components of the CRS built from code 4326 (the
hypotheses key those exact queries).
-/
theorem inspect_epsg_hierarchy_reports_codes (s : GeoServices)
    (nm cd dn en : String)
    (h0 : s.importFromEPSG 4326 = .ok ())
    (h1 : s.getName 4326 = .ok nm)
    (h2 : s.getAuthorityCode 4326 none = .ok cd)
    (h3 : s.getAttrValue 4326 "DATUM" = .ok dn)
    (h4 : s.getAuthorityCode 4326 (some "DATUM") = .ok "6326")
    (h5 : s.getAttrValue 4326 "SPHEROID" = .ok en)
    (h6 : s.getAuthorityCode 4326 (some "SPHEROID") = .ok "7030") :
    ∃ out, inspect_epsg_hierarchy s = .ok out ∧
      [Item.str "  -> Datum Code: ", Item.str "6326"] ∈ out ∧
      [Item.str "    -> Ellipsoid Code: ", Item.str "7030"] ∈ out := by
  unfold inspect_epsg_hierarchy
  rw [h0, h1, h2, h3, h4, h5, h6]
  refine ⟨_, rfl, ?_, ?_⟩ <;> simp [print_header]

/-- Witness for C4 at the concrete `okServices`. -/
theorem inspect_epsg_hierarchy_reports_codes_witness :
    ∃ out, inspect_epsg_hierarchy okServices = .ok out ∧
      [Item.str "  -> Datum Code: ", Item.str "6326"] ∈ out ∧
      [Item.str "    -> Ellipsoid Code: ", Item.str "7030"] ∈ out :=
  inspect_epsg_hierarchy_reports_codes okServices
    "WGS 84" "4326" "WGS_1984" "WGS 84" rfl rfl rfl rfl rfl rfl rfl

/-- Helper: `bind` on a succeeding `Except` computation reduces. -/
theorem except_ok_bind {α β : Type} (a : α) (f : α → Except PyErr β) :
    (bind (Except.ok a) f : Except PyErr β) = f a := rfl

/--
C5: if the geodesy libraries are unavailable at startup (the imports raise
`ImportError`), the program prints the human-readable explanation plus the
underlying failure detail and exits with status 1, before any demonstration
logic runs — the result is independent of the services, which are never
consulted.
-/
theorem import_guard_exits_one (s t : GeoServices) (e : String) :
    program (.importError e) s =
      .exited 1
        [[Item.str "Error: Missing required libraries."],
         [Item.str "Details: ", Item.str e],
         [Item.str "Please install them using: pip install gdal pyproj"]] ∧
    program (.importError e) s = program (.importError e) t :=
  ⟨rfl, rfl⟩

/--
C6: no runtime failure from the CRS lookup, the transformation construction
or application, or the geodesic solve is caught in the demonstration
functions or in `main`: a failing service call — including a failure of
`geod.inv`, the geodesic solve itself — surfaces as the failure of its
demonstration function, and a failing demonstration function terminates the
whole run uncaught with the same exception.
-/
theorem runtime_errors_propagate_uncaught (s : GeoServices) (e : PyErr) :
    (s.importFromEPSG 4326 = .error e → inspect_epsg_hierarchy s = .error e) ∧
    (s.fromCRS "EPSG:4267" "EPSG:4326" true = .error e →
      demonstrate_datum_shift s = .error e) ∧
    (s.fromCRS "EPSG:4267" "EPSG:4326" true = .ok () →
      s.transform "EPSG:4267" "EPSG:4326" true lon_nad27 lat_nad27 = .error e →
      demonstrate_datum_shift s = .error e) ∧
    (∀ cN cW : Float × Float, s.geodCtor "WGS84" = .error e →
      calculate_error s cN cW = .error e) ∧
    (∀ cN cW : Float × Float, s.geodCtor "WGS84" = .ok () →
      s.geodInv "WGS84" cW.1 cW.2 cN.1 cN.2 = .error e →
      calculate_error s cN cW = .error e) ∧
    (inspect_epsg_hierarchy s = .error e → program .ok s = .uncaught e) ∧
    (∀ o1 : List Line, inspect_epsg_hierarchy s = .ok o1 →
      demonstrate_datum_shift s = .error e → program .ok s = .uncaught e) ∧
    (∀ (o1 o2 : List Line) (cN cW : Float × Float),
      inspect_epsg_hierarchy s = .ok o1 →
      demonstrate_datum_shift s = .ok (o2, (cN, cW)) →
      calculate_error s cN cW = .error e → program .ok s = .uncaught e) := by
  refine ⟨?_, ?_, ?_, ?_, ?_, ?_, ?_, ?_⟩
  · intro h
    unfold inspect_epsg_hierarchy
    rw [h]
    rfl
  · intro h
    unfold demonstrate_datum_shift
    rw [h]
    rfl
  · intro h1 h2
    unfold demonstrate_datum_shift
    rw [h1, except_ok_bind, h2]
    rfl
  · intro cN cW h
    obtain ⟨lonN, latN⟩ := cN
    obtain ⟨lonW, latW⟩ := cW
    unfold calculate_error
    dsimp only
    rw [h]
    rfl
  · intro cN cW h1 h2
    obtain ⟨lonN, latN⟩ := cN
    obtain ⟨lonW, latW⟩ := cW
    dsimp only at h2
    unfold calculate_error
    dsimp only
    rw [h1, except_ok_bind, h2]
    rfl
  · intro h
    unfold program main
    rw [h]
    rfl
  · intro o1 h1 h2
    unfold program main
    rw [h1, except_ok_bind, h2]
    rfl
  · intro o1 o2 cN cW h1 h2 h3
    unfold program main
    rw [h1, except_ok_bind, h2, except_ok_bind]
    dsimp only
    rw [h3]
    rfl

/-- Witness for C6: a geodesic solve raising "solve failed" fails
`calculate_error` and ends the whole run uncaught with "solve failed"; a
CRS lookup raising "boom" likewise ends the run uncaught with "boom". -/
theorem runtime_errors_propagate_uncaught_witness :
    calculate_error failInvServices (-98.541802, 39.224079) (-98.541431, 39.224243) =
        .error "solve failed" ∧
    program .ok failInvServices = .uncaught "solve failed" ∧
    program .ok failServices = .uncaught "boom" :=
  ⟨(runtime_errors_propagate_uncaught failInvServices "solve failed").2.2.2.2.1
      (-98.541802, 39.224079) (-98.541431, 39.224243) rfl rfl,
   (runtime_errors_propagate_uncaught failInvServices "solve failed").2.2.2.2.2.2.2
      okInspectLines okDemoLines (-98.541802, 39.224079) (-98.541431, 39.224243)
      rfl rfl rfl,
   (runtime_errors_propagate_uncaught failServices "boom").2.2.2.2.2.1 rfl⟩

/--
C7: `main` executes exactly the sequence step 1 (`inspect_epsg_hierarchy`,
return value not consumed), step 2 (`demonstrate_datum_shift`, capturing its
two returned pairs), step 3 (`calculate_error`, consuming exactly those two
pairs), framed by the opening print and the closing header, with no
branching and no loops: the run is fully characterized by the three steps'
results, concatenated in order.
-/
theorem main_runs_three_steps (s : GeoServices) (o1 o2 o3 : List Line)
    (cN cW : Float × Float)
    (h1 : inspect_epsg_hierarchy s = .ok o1)
    (h2 : demonstrate_datum_shift s = .ok (o2, (cN, cW)))
    (h3 : calculate_error s cN cW = .ok o3) :
    main s = .ok ([[Item.str "Running Geodesy Concept Script..."]] ++
      o1 ++ o2 ++ o3 ++ print_header "SCRIPT COMPLETE") := by
  unfold main
  rw [h1, except_ok_bind, h2, except_ok_bind]
  dsimp only
  rw [h3, except_ok_bind]
  rfl

/-- Witness for C7 at the concrete `okServices`. -/
theorem main_runs_three_steps_witness :
    main okServices = .ok ([[Item.str "Running Geodesy Concept Script..."]] ++
      okInspectLines ++ okDemoLines ++ calc_error_lines 40.0 ++
      print_header "SCRIPT COMPLETE") :=
  main_runs_three_steps okServices okInspectLines okDemoLines (calc_error_lines 40.0)
    (-98.541802, 39.224079) (-98.541431, 39.224243) rfl rfl rfl

/--
C8: the program is deterministic — with the same service behaviour, the
result does not depend on the ambient world (clock, randomness seed,
persisted state), a run leaves the world unchanged, and an immediately
repeated run produces the identical result.
-/
theorem program_deterministic (imp : ImportOutcome) (s : GeoServices) (w v : World) :
    (run_program imp s w).1 = (run_program imp s v).1 ∧
    (run_program imp s w).2 = w ∧
    (run_program imp s (run_program imp s w).2).1 = (run_program imp s w).1 :=
  ⟨rfl, rfl, rfl⟩

/--
C9: the startup dependency guard converts only `ImportError` into the
missing-dependency message and exit status 1; an import-time exception of
any other type is not caught by the guard and propagates as an unhandled
error.
-/
theorem import_guard_catches_only_import_error (s : GeoServices) (e : String) :
    program (.importError e) s =
      .exited 1
        [[Item.str "Error: Missing required libraries."],
         [Item.str "Details: ", Item.str e],
         [Item.str "Please install them using: pip install gdal pyproj"]] ∧
    program (.otherError e) s = .uncaught e :=
  ⟨rfl, rfl⟩

end GeodesyConcepts
